import Mathlib

/-
Shallow embedding of src/auth0/resource_auth0_log_stream.go: the Auth0
Terraform provider's log-stream resource.  The file maps a flat Terraform
configuration (name, type, status plus one field group per sink variant)
onto the Auth0 management API's polymorphic LogStream record, and back.

The mutable `*schema.ResourceData` of the Terraform SDK is modelled as an
explicit state value (an id plus an association list of attributes); every
Go function that mutates it becomes a Lean function returning the updated
state.  The external management-API client is modelled as an oracle
parameter: each CRUD operation receives the API's response as an argument.
-/

namespace LogStreamMapper

/-- An attribute value stored in the Terraform state: the schema in the
source declares only string, bool and set-of-string fields. -/
inductive Attr where
  | str (s : String)
  | boolean (b : Bool)
  | strSet (l : List String)
deriving Repr, DecidableEq

/-- Modelled from the spec: the configuration-access abstraction
("typed getters/setters for named fields") wrapping the Terraform SDK's
`schema.ResourceData`, which is not part of src/.  The resource identifier
is kept separately from the named attributes, as in the SDK
(`d.Id`/`d.SetId` versus `d.Get`/`d.Set`). -/
structure ResourceData where
  id : String
  attrs : List (String × Attr)
deriving Repr, DecidableEq

/-- Attribute lookup: the most recent `Set` for a key wins. -/
def getAttr (d : ResourceData) (k : String) : Option Attr :=
  (d.attrs.find? (fun p => p.1 == k)).map (fun p => p.2)

/-- Modelled from the spec: `d.Set(key, value)` stores a value under a
named key. -/
def setAttr (d : ResourceData) (k : String) (v : Attr) : ResourceData :=
  { d with attrs := (k, v) :: d.attrs }

/-- Modelled from the spec: `d.SetId(value)` stores the identifier. -/
def setId (d : ResourceData) (i : String) : ResourceData :=
  { d with id := i }

/-- Modelled from the spec: `d.Get(key).(string)` — the SDK getter returns
the zero value (the empty string) when the key is absent or not a string. -/
def getGoString (d : ResourceData) (k : String) : String :=
  match getAttr d k with
  | some (.str s) => s
  | _ => ""

/-- Modelled from the spec: the repository's `String(d, key, ...)` helper
(declared outside src/), which reads a named field as an optional string
(`*string` in Go, `nil` when the field is absent); per the spec the
configuration fields are copied directly. -/
def StringF (d : ResourceData) (k : String) : Option String :=
  match getAttr d k with
  | some (.str s) => some s
  | _ => none

/-- Modelled from the spec: the repository's `Bool(d, key)` helper
(declared outside src/), reading a named field as an optional bool. -/
def BoolF (d : ResourceData) (k : String) : Option Bool :=
  match getAttr d k with
  | some (.boolean b) => some b
  | _ => none

/-- Modelled from the spec: the repository's `Set(d, key).List()` helper
(declared outside src/), reading a named set field as a list. -/
def SetF (d : ResourceData) (k : String) : List String :=
  match getAttr d k with
  | some (.strSet l) => l
  | _ => []

/-! The sink structs of the external management library (`gopkg.in/auth0.v5`);
their fields are `*string` / `*bool` in Go, modelled as `Option`. -/

structure LogStreamSinkAmazonEventBridge where
  AccountID : Option String
  Region : Option String
  PartnerEventSource : Option String
deriving Repr, DecidableEq

structure LogStreamSinkAzureEventGrid where
  SubscriptionID : Option String
  ResourceGroup : Option String
  Region : Option String
  PartnerTopic : Option String
deriving Repr, DecidableEq

structure LogStreamSinkHTTP where
  ContentFormat : Option String
  ContentType : Option String
  Endpoint : Option String
  Authorization : Option String
  CustomHeaders : List String
deriving Repr, DecidableEq

structure LogStreamSinkDatadog where
  Region : Option String
  APIKey : Option String
deriving Repr, DecidableEq

structure LogStreamSinkSplunk where
  Domain : Option String
  Token : Option String
  Port : Option String
  Secure : Option Bool
deriving Repr, DecidableEq

/-- The Go `ls.Sink` field has type `interface{}`: a runtime-tagged value
holding one of the five sink structs.  `Option SinkValue` models the
interface value; `none` stands for `nil` or any value matching none of the
five known variants (both fall through every `case` of the Go type
switch). -/
inductive SinkValue where
  | amazonEventBridge (o : LogStreamSinkAmazonEventBridge)
  | azureEventGrid (o : LogStreamSinkAzureEventGrid)
  | http (o : LogStreamSinkHTTP)
  | datadog (o : LogStreamSinkDatadog)
  | splunk (o : LogStreamSinkSplunk)
deriving Repr, DecidableEq

/-- `management.LogStream`: the remote record.  The Go field `Type` is
spelled `Type'` here because `Type` is reserved in Lean. -/
structure LogStream where
  ID : Option String
  Name : Option String
  Type' : Option String
  Status : Option String
  Sink : Option SinkValue
deriving Repr, DecidableEq

/-! The `GetX` accessors of the management library dereference the pointer
fields, returning the zero value on `nil`. -/

def LogStreamSinkAmazonEventBridge.GetAccountID (o : LogStreamSinkAmazonEventBridge) : String :=
  o.AccountID.getD ""

def LogStreamSinkAmazonEventBridge.GetRegion (o : LogStreamSinkAmazonEventBridge) : String :=
  o.Region.getD ""

def LogStreamSinkAmazonEventBridge.GetPartnerEventSource (o : LogStreamSinkAmazonEventBridge) : String :=
  o.PartnerEventSource.getD ""

def LogStreamSinkAzureEventGrid.GetSubscriptionID (o : LogStreamSinkAzureEventGrid) : String :=
  o.SubscriptionID.getD ""

def LogStreamSinkAzureEventGrid.GetResourceGroup (o : LogStreamSinkAzureEventGrid) : String :=
  o.ResourceGroup.getD ""

def LogStreamSinkAzureEventGrid.GetRegion (o : LogStreamSinkAzureEventGrid) : String :=
  o.Region.getD ""

def LogStreamSinkAzureEventGrid.GetPartnerTopic (o : LogStreamSinkAzureEventGrid) : String :=
  o.PartnerTopic.getD ""

def LogStreamSinkHTTP.GetContentFormat (o : LogStreamSinkHTTP) : String :=
  o.ContentFormat.getD ""

def LogStreamSinkHTTP.GetContentType (o : LogStreamSinkHTTP) : String :=
  o.ContentType.getD ""

def LogStreamSinkHTTP.GetEndpoint (o : LogStreamSinkHTTP) : String :=
  o.Endpoint.getD ""

def LogStreamSinkHTTP.GetAuthorization (o : LogStreamSinkHTTP) : String :=
  o.Authorization.getD ""

def LogStreamSinkDatadog.GetRegion (o : LogStreamSinkDatadog) : String :=
  o.Region.getD ""

def LogStreamSinkDatadog.GetAPIKey (o : LogStreamSinkDatadog) : String :=
  o.APIKey.getD ""

def LogStreamSinkSplunk.GetDomain (o : LogStreamSinkSplunk) : String :=
  o.Domain.getD ""

def LogStreamSinkSplunk.GetToken (o : LogStreamSinkSplunk) : String :=
  o.Token.getD ""

def LogStreamSinkSplunk.GetPort (o : LogStreamSinkSplunk) : String :=
  o.Port.getD ""

def LogStreamSinkSplunk.GetSecure (o : LogStreamSinkSplunk) : Bool :=
  o.Secure.getD false

/-! Type-tag constants of the management library (the five values also
enumerated by the schema's validator in src/). -/

def LogStreamTypeAmazonEventBridge : String := "eventbridge"

def LogStreamTypeAzureEventGrid : String := "eventgrid"

def LogStreamTypeHTTP : String := "http"

def LogStreamTypeDatadog : String := "datadog"

def LogStreamTypeSplunk : String := "splunk"

/-- `http.StatusNotFound` of the Go standard library. -/
def StatusNotFound : Nat := 404

/-- A Go `error` value as seen by this file: either a typed
`management.Error` exposing an HTTP status via `Status()`, or any other
(untyped) error.  The type assertion `err.(management.Error)` succeeds
exactly on the first constructor. -/
inductive GoError where
  | management (status : Nat) (msg : String)
  | untyped (msg : String)
deriving Repr, DecidableEq

/-! ## The flatten functions (API record → configuration fields)

Each Go flatten function mutates `d` via `d.Set`; here each returns the
updated state.  The keys are transcribed verbatim from the source —
including the keys `"http_contentFormat"` and `"http_contentType"` written
by `flattenLogStreamHTTPSink`, which differ from the schema keys
`"http_content_format"` and `"http_content_type"` read by the expand side. -/

def flattenLogStreamEventBridgeSink (d : ResourceData)
    (o : LogStreamSinkAmazonEventBridge) : ResourceData :=
  let d := setAttr d "aws_account_id" (.str o.GetAccountID)
  let d := setAttr d "aws_region" (.str o.GetRegion)
  let d := setAttr d "aws_partner_event_source" (.str o.GetPartnerEventSource)
  d

def flattenLogStreamEventGridSink (d : ResourceData)
    (o : LogStreamSinkAzureEventGrid) : ResourceData :=
  let d := setAttr d "azure_subscription_id" (.str o.GetSubscriptionID)
  let d := setAttr d "azure_resource_group" (.str o.GetResourceGroup)
  let d := setAttr d "azure_region" (.str o.GetRegion)
  let d := setAttr d "azure_partner_topic" (.str o.GetPartnerTopic)
  d

def flattenLogStreamHTTPSink (d : ResourceData)
    (o : LogStreamSinkHTTP) : ResourceData :=
  let d := setAttr d "http_endpoint" (.str o.GetEndpoint)
  let d := setAttr d "http_contentFormat" (.str o.GetContentFormat)
  let d := setAttr d "http_contentType" (.str o.GetContentType)
  let d := setAttr d "http_authorization" (.str o.GetAuthorization)
  let d := setAttr d "http_custom_headers" (.strSet o.CustomHeaders)
  d

def flattenLogStreamDatadogSink (d : ResourceData)
    (o : LogStreamSinkDatadog) : ResourceData :=
  let d := setAttr d "datadog_region" (.str o.GetRegion)
  let d := setAttr d "datadog_api_key" (.str o.GetAPIKey)
  d

def flattenLogStreamSplunkSink (d : ResourceData)
    (o : LogStreamSinkSplunk) : ResourceData :=
  let d := setAttr d "splunk_domain" (.str o.GetDomain)
  let d := setAttr d "splunk_token" (.str o.GetToken)
  let d := setAttr d "splunk_port" (.str o.GetPort)
  let d := setAttr d "splunk_secure" (.boolean o.GetSecure)
  d

/-- The Go type switch over `sink.(type)`; a value matching no case (here:
`none`) falls through and the state is returned unchanged.  The Go
function's `[]interface{}` return value is `[m]` with `m` never assigned
and never used by any caller, so it is dropped here. -/
def flattenLogStreamSink (d : ResourceData) (sink : Option SinkValue) : ResourceData :=
  match sink with
  | some (.amazonEventBridge o) => flattenLogStreamEventBridgeSink d o
  | some (.azureEventGrid o) => flattenLogStreamEventGridSink d o
  | some (.http o) => flattenLogStreamHTTPSink d o
  | some (.datadog o) => flattenLogStreamDatadogSink d o
  | some (.splunk o) => flattenLogStreamSplunkSink d o
  | none => d

/-! ## The expand functions (configuration → API record) -/

def expandLogStreamEventBridgeSink (d : ResourceData) : LogStreamSinkAmazonEventBridge :=
  { AccountID := StringF d "aws_account_id"
    Region := StringF d "aws_region"
    PartnerEventSource := StringF d "aws_partner_event_source" }

def expandLogStreamEventGridSink (d : ResourceData) : LogStreamSinkAzureEventGrid :=
  { SubscriptionID := StringF d "azure_subscription_id"
    ResourceGroup := StringF d "azure_resource_group"
    Region := StringF d "azure_region"
    PartnerTopic := StringF d "azure_partner_topic" }

def expandLogStreamHTTPSink (d : ResourceData) : LogStreamSinkHTTP :=
  { ContentFormat := StringF d "http_content_format"
    ContentType := StringF d "http_content_type"
    Endpoint := StringF d "http_endpoint"
    Authorization := StringF d "http_authorization"
    CustomHeaders := SetF d "http_custom_headers" }

def expandLogStreamDatadogSink (d : ResourceData) : LogStreamSinkDatadog :=
  { Region := StringF d "datadog_region"
    APIKey := StringF d "datadog_api_key" }

def expandLogStreamSplunkSink (d : ResourceData) : LogStreamSinkSplunk :=
  { Domain := StringF d "splunk_domain"
    Token := StringF d "splunk_token"
    Port := StringF d "splunk_port"
    Secure := BoolF d "splunk_secure" }

/-- `expandLogStream`: copies name, type and status, then dispatches on the
configuration's `type` string.  The Go `default` branch only logs warnings,
so the record keeps `Sink = none` (Go `nil`) and no error is possible (the
function returns only the record). -/
def expandLogStream (d : ResourceData) : LogStream :=
  let ls : LogStream :=
    { ID := none
      Name := StringF d "name"
      Type' := StringF d "type"
      Status := StringF d "status"
      Sink := none }
  let s := getGoString d "type"
  if s = LogStreamTypeAmazonEventBridge then
    { ls with Sink := some (.amazonEventBridge (expandLogStreamEventBridgeSink d)) }
  else if s = LogStreamTypeAzureEventGrid then
    { ls with Sink := some (.azureEventGrid (expandLogStreamEventGridSink d)) }
  else if s = LogStreamTypeHTTP then
    { ls with Sink := some (.http (expandLogStreamHTTPSink d)) }
  else if s = LogStreamTypeDatadog then
    { ls with Sink := some (.datadog (expandLogStreamDatadogSink d)) }
  else if s = LogStreamTypeSplunk then
    { ls with Sink := some (.splunk (expandLogStreamSplunkSink d)) }
  else
    ls

/-! ## The CRUD operations

Each operation returns the final `ResourceData` state together with the Go
return value (`Option GoError`; `none` is Go `nil`).  The external API
client is passed as an oracle giving the response of each remote call. -/

/-- `readLogStream`: a typed 404 clears the id and succeeds; any other
error is returned with the state untouched; on success the id, name,
status and type are stored and the sink is flattened. -/
def readLogStream (d : ResourceData)
    (apiRead : String → Except GoError LogStream) : ResourceData × Option GoError :=
  match apiRead d.id with
  | .error e =>
      match e with
      | .management st msg =>
          if st = StatusNotFound then (setId d "", none)
          else (d, some (.management st msg))
      | .untyped msg => (d, some (.untyped msg))
  | .ok ls =>
      let d := setId d (ls.ID.getD "")
      let d := setAttr d "name" (.str (ls.Name.getD ""))
      let d := setAttr d "status" (.str (ls.Status.getD ""))
      let d := setAttr d "type" (.str (ls.Type'.getD ""))
      (flattenLogStreamSink d ls.Sink, none)

/-- `createLogStream`: expands the configuration, sends the record to the
API's Create call (the oracle returns the server-assigned id that Create
writes into `ls.ID`, dereferenced as `auth0.StringValue`), stores the id
and then performs a read; a Create failure is returned with the state
untouched. -/
def createLogStream (d : ResourceData)
    (apiCreate : LogStream → Except GoError String)
    (apiRead : String → Except GoError LogStream) : ResourceData × Option GoError :=
  let ls := expandLogStream d
  match apiCreate ls with
  | .error e => (d, some e)
  | .ok assignedId => readLogStream (setId d assignedId) apiRead

/-- `updateLogStream`: expands the configuration, sends it to the API's
Update call, and on success performs a read; any Update failure (404
included — Update has no not-found handling) is returned unchanged. -/
def updateLogStream (d : ResourceData)
    (apiUpdate : String → LogStream → Option GoError)
    (apiRead : String → Except GoError LogStream) : ResourceData × Option GoError :=
  let c := expandLogStream d
  match apiUpdate d.id c with
  | some e => (d, some e)
  | none => readLogStream d apiRead

/-- `deleteLogStream`: a typed 404 clears the id and succeeds; any other
error (typed non-404 or untyped) is returned with the state untouched. -/
def deleteLogStream (d : ResourceData)
    (apiDelete : String → Option GoError) : ResourceData × Option GoError :=
  match apiDelete d.id with
  | some e =>
      match e with
      | .management st msg =>
          if st = StatusNotFound then (setId d "", none)
          else (d, some (.management st msg))
      | .untyped msg => (d, some (.untyped msg))
  | none => (d, none)

/-! ## The schema validator for the `type` field -/

/-- ASCII case folding of one character code (the three validator values
compared case-insensitively are plain ASCII). -/
def foldNat (c : Char) : Nat :=
  if 65 ≤ c.toNat ∧ c.toNat ≤ 90 then c.toNat + 32 else c.toNat

/-- `strings.EqualFold` of the Go standard library, restricted to ASCII. -/
def EqualFold (a b : String) : Bool :=
  a.data.map foldNat == b.data.map foldNat

/-- Modelled from the spec: the Terraform SDK's
`validation.StringInSlice(valid, ignoreCase)`, which accepts a string equal
to a listed value, comparing with `strings.EqualFold` when `ignoreCase` is
true. -/
def StringInSlice (valid : List String) (ignoreCase : Bool) (v : String) : Bool :=
  valid.any (fun s => v = s || (ignoreCase && EqualFold v s))

/-- The argument list passed to the validator of the `type` field in
`newLogStream` (ignoreCase is `true` there). -/
def logStreamTypeValidValues : List String :=
  ["eventbridge", "eventgrid", "http", "datadog", "splunk"]

/-- The `ValidateFunc` attached to the `type` field by `newLogStream`. -/
def validateLogStreamType (v : String) : Bool :=
  StringInSlice logStreamTypeValidValues true v

/-! ## Concrete configurations used to evaluate the definitions -/

/-- A fresh state with no attributes set. -/
def emptyRD : ResourceData := { id := "", attrs := [] }

/-- An http-type configuration with all four HTTP fields and a custom
header set. -/
def dHttp : ResourceData :=
  { id := "", attrs :=
    [("name", .str "my-stream"), ("type", .str "http"), ("status", .str "active"),
     ("http_endpoint", .str "https://example.com/logs"),
     ("http_content_format", .str "JSONLINES"),
     ("http_content_type", .str "application/json"),
     ("http_authorization", .str "Bearer abc"),
     ("http_custom_headers", .strSet ["x-a: 1"])] }

/-- An eventbridge-type configuration carrying a value for the
server-assigned readonly field `aws_partner_event_source`. -/
def dEventBridge : ResourceData :=
  { id := "", attrs :=
    [("name", .str "eb-stream"), ("type", .str "eventbridge"),
     ("aws_account_id", .str "123456789012"), ("aws_region", .str "us-east-1"),
     ("aws_partner_event_source", .str "aws.partner/auth0.com/x/auth0.logs")] }

/-- An eventgrid-type configuration carrying a value for the
server-assigned readonly field `azure_partner_topic`. -/
def dEventGrid : ResourceData :=
  { id := "", attrs :=
    [("name", .str "eg-stream"), ("type", .str "eventgrid"),
     ("azure_subscription_id", .str "sub-1"), ("azure_resource_group", .str "rg-1"),
     ("azure_region", .str "westeurope"), ("azure_partner_topic", .str "topic-1")] }

/-- A datadog-type configuration. -/
def dDatadog : ResourceData :=
  { id := "", attrs :=
    [("name", .str "dd-stream"), ("type", .str "datadog"),
     ("datadog_region", .str "eu"), ("datadog_api_key", .str "ddkey")] }

/-- A splunk-type configuration. -/
def dSplunk : ResourceData :=
  { id := "", attrs :=
    [("name", .str "sp-stream"), ("type", .str "splunk"),
     ("splunk_domain", .str "example.splunkcloud.com"), ("splunk_token", .str "tok"),
     ("splunk_port", .str "8088"), ("splunk_secure", .boolean true)] }

/-- A configuration whose `type` is the uppercase spelling "HTTP": it
passes the case-insensitive schema validator but matches no case of the
expand dispatch. -/
def dUpperHTTP : ResourceData :=
  { id := "", attrs :=
    [("name", .str "upper"), ("type", .str "HTTP"), ("status", .str "active")] }

/-- A state holding an existing resource identifier, used to exercise the
CRUD operations. -/
def dWithId : ResourceData := { id := "ls_abc", attrs := [] }

/-- An API oracle answering every read with a typed 404. -/
def apiRead404 : String → Except GoError LogStream :=
  fun _ => .error (.management 404 "not found")

/-- An API oracle answering every read with a typed 500. -/
def apiRead500 : String → Except GoError LogStream :=
  fun _ => .error (.management 500 "server error")

/-- An API oracle answering every read with an untyped error. -/
def apiReadUntyped : String → Except GoError LogStream :=
  fun _ => .error (.untyped "connection refused")

/-- A concrete remote record returned by a successful read. -/
def lsRemote : LogStream :=
  { ID := some "ls_abc", Name := some "dd-stream", Type' := some "datadog",
    Status := some "active",
    Sink := some (.datadog { Region := some "eu", APIKey := some "ddkey" }) }

/-- An API oracle answering every read with `lsRemote`. -/
def apiReadOk : String → Except GoError LogStream :=
  fun _ => .ok lsRemote

/-- An API oracle whose Create call assigns the id "ls_abc". -/
def apiCreateOk : LogStream → Except GoError String :=
  fun _ => .ok "ls_abc"

/-- An API oracle whose Create call fails with a typed 429. -/
def apiCreate429 : LogStream → Except GoError String :=
  fun _ => .error (.management 429 "too many requests")

/-- An API oracle whose Update call fails with an untyped error. -/
def apiUpdateUntyped : String → LogStream → Option GoError :=
  fun _ _ => some (.untyped "connection refused")

/-- An API oracle answering every delete with a typed 404. -/
def apiDelete404 : String → Option GoError :=
  fun _ => some (.management 404 "not found")

/-- An API oracle answering every delete with a typed 500. -/
def apiDelete500 : String → Option GoError :=
  fun _ => some (.management 500 "server error")

/-! ## Theorems -/

/-- C2: for every configuration whose type string is none of the five
recognized sink types, `expandLogStream` returns a record whose sink is
empty (`none`), while name, type and status are still copied from the
configuration; the function returns only the record, so no error can be
raised (the Go default branch only logs warnings). -/
theorem expandLogStream_unsupported_type (d : ResourceData)
    (h : getGoString d "type" ∉ logStreamTypeValidValues) :
    (expandLogStream d).Sink = none ∧
    (expandLogStream d).Name = StringF d "name" ∧
    (expandLogStream d).Type' = StringF d "type" ∧
    (expandLogStream d).Status = StringF d "status" := by
  simp only [logStreamTypeValidValues, List.mem_cons, List.mem_singleton,
    not_or] at h
  obtain ⟨h1, h2, h3, h4, h5⟩ := h
  simp [expandLogStream, LogStreamTypeAmazonEventBridge, LogStreamTypeAzureEventGrid,
    LogStreamTypeHTTP, LogStreamTypeDatadog, LogStreamTypeSplunk, h1, h2, h3, h4, h5]

/-- Witness for C2: the configuration with type "HTTP" (not one of the
five lowercase constants) expands to a record with an empty sink and the
name, type and status copied. -/
theorem expandLogStream_unsupported_type_witness :
    getGoString dUpperHTTP "type" ∉ logStreamTypeValidValues ∧
    ((expandLogStream dUpperHTTP).Sink = none ∧
     (expandLogStream dUpperHTTP).Name = StringF dUpperHTTP "name" ∧
     (expandLogStream dUpperHTTP).Type' = StringF dUpperHTTP "type" ∧
     (expandLogStream dUpperHTTP).Status = StringF dUpperHTTP "status") :=
  ⟨by decide, expandLogStream_unsupported_type dUpperHTTP (by decide)⟩

/-- C3: for every configuration of type "http" with the four HTTP fields
set, `expandLogStream` produces a record whose sink is exactly the HTTP
variant carrying those four values plus the custom headers; the sink being
the `.http` constructor means no AWS, Azure, Datadog or Splunk sink fields
exist in the record. -/
theorem expandLogStream_http (d : ResourceData) (e cf ct a : String)
    (ht : getAttr d "type" = some (.str "http"))
    (he : getAttr d "http_endpoint" = some (.str e))
    (hf : getAttr d "http_content_format" = some (.str cf))
    (hc : getAttr d "http_content_type" = some (.str ct))
    (ha : getAttr d "http_authorization" = some (.str a)) :
    (expandLogStream d).Sink = some (.http
      { ContentFormat := some cf
        ContentType := some ct
        Endpoint := some e
        Authorization := some a
        CustomHeaders := SetF d "http_custom_headers" }) := by
  have hs : getGoString d "type" = "http" := by simp [getGoString, ht]
  simp [expandLogStream, hs, LogStreamTypeAmazonEventBridge, LogStreamTypeAzureEventGrid,
    LogStreamTypeHTTP, LogStreamTypeDatadog, LogStreamTypeSplunk,
    expandLogStreamHTTPSink, StringF, he, hf, hc, ha]

/-- Witness for C3: the concrete http configuration expands to the HTTP
sink carrying exactly its four field values and custom headers. -/
theorem expandLogStream_http_witness :
    (expandLogStream dHttp).Sink = some (.http
      { ContentFormat := some "JSONLINES"
        ContentType := some "application/json"
        Endpoint := some "https://example.com/logs"
        Authorization := some "Bearer abc"
        CustomHeaders := ["x-a: 1"] }) := by
  have h := expandLogStream_http dHttp "https://example.com/logs" "JSONLINES"
    "application/json" "Bearer abc" (by decide) (by decide) (by decide) (by decide) (by decide)
  exact h.trans (by decide)

/-- C9: the schema validator of the `type` field accepts the five sink
type names case-insensitively (shown for "HTTP" and "Eventbridge"), but
expand's dispatch matches only the exact lowercase constants, so the
configuration with type "HTTP" passes validation yet expands to a record
with an empty sink. -/
theorem validateLogStreamType_expand_case_mismatch :
    validateLogStreamType "HTTP" = true ∧
    validateLogStreamType "Eventbridge" = true ∧
    (expandLogStream dUpperHTTP).Sink = none ∧
    (expandLogStream dUpperHTTP).Type' = some "HTTP" := by
  refine ⟨by decide, by decide, by decide, by decide⟩

/-- C10: `expandLogStreamEventBridgeSink` and `expandLogStreamEventGridSink`
copy the server-assigned readonly configuration fields
(`aws_partner_event_source`, `azure_partner_topic`) into the outbound sink
(`PartnerEventSource`, `PartnerTopic`), and for configurations of type
eventbridge/eventgrid these sinks — readonly fields included — are exactly
what `expandLogStream` places in the record sent to the API. -/
theorem expandLogStream_sends_readonly_fields (d : ResourceData) :
    (expandLogStreamEventBridgeSink d).PartnerEventSource =
      StringF d "aws_partner_event_source" ∧
    (expandLogStreamEventGridSink d).PartnerTopic =
      StringF d "azure_partner_topic" ∧
    (getGoString d "type" = "eventbridge" →
      (expandLogStream d).Sink =
        some (.amazonEventBridge (expandLogStreamEventBridgeSink d))) ∧
    (getGoString d "type" = "eventgrid" →
      (expandLogStream d).Sink =
        some (.azureEventGrid (expandLogStreamEventGridSink d))) := by
  refine ⟨rfl, rfl, ?_, ?_⟩ <;> intro hs <;>
    simp [expandLogStream, hs, LogStreamTypeAmazonEventBridge,
      LogStreamTypeAzureEventGrid, LogStreamTypeHTTP, LogStreamTypeDatadog,
      LogStreamTypeSplunk]

/-- Witness for C10: the concrete eventbridge and eventgrid configurations
expand to records whose sinks carry the configured values of
`aws_partner_event_source` and `azure_partner_topic`. -/
theorem expandLogStream_sends_readonly_fields_witness :
    (expandLogStream dEventBridge).Sink = some (.amazonEventBridge
      { AccountID := some "123456789012"
        Region := some "us-east-1"
        PartnerEventSource := some "aws.partner/auth0.com/x/auth0.logs" }) ∧
    (expandLogStream dEventGrid).Sink = some (.azureEventGrid
      { SubscriptionID := some "sub-1"
        ResourceGroup := some "rg-1"
        Region := some "westeurope"
        PartnerTopic := some "topic-1" }) :=
  ⟨((expandLogStream_sends_readonly_fields dEventBridge).2.2.1 (by decide)).trans (by decide),
   ((expandLogStream_sends_readonly_fields dEventGrid).2.2.2 (by decide)).trans (by decide)⟩

/-- C4: when the read call fails with a typed 404, `readLogStream` clears
the stored identifier, leaves every attribute untouched and returns no
error; on any other failure it returns the error with the state — the
identifier included — unchanged. -/
theorem readLogStream_not_found (d : ResourceData)
    (apiRead : String → Except GoError LogStream) :
    (∀ msg, apiRead d.id = .error (.management StatusNotFound msg) →
      readLogStream d apiRead = (setId d "", none) ∧ (setId d "").attrs = d.attrs) ∧
    (∀ e, apiRead d.id = .error e → (∀ msg, e ≠ .management StatusNotFound msg) →
      readLogStream d apiRead = (d, some e)) := by
  constructor
  · intro msg h
    exact ⟨by simp [readLogStream, h], rfl⟩
  · intro e h hne
    cases e with
    | management st msg =>
        have hst : st ≠ StatusNotFound := by
          intro hc; exact hne msg (by rw [hc])
        simp [readLogStream, h, hst]
    | untyped msg => simp [readLogStream, h]

/-- Witness for C4: a 404 read clears the id of `dWithId` without error,
while a 500 read and an untyped read leave the state unchanged and return
the error. -/
theorem readLogStream_not_found_witness :
    readLogStream dWithId apiRead404 = (setId dWithId "", none) ∧
    readLogStream dWithId apiRead500 = (dWithId, some (.management 500 "server error")) ∧
    readLogStream dWithId apiReadUntyped = (dWithId, some (.untyped "connection refused")) :=
  ⟨((readLogStream_not_found dWithId apiRead404).1 "not found" rfl).1,
   (readLogStream_not_found dWithId apiRead500).2 _ rfl
     (fun msg h => by simp [GoError.management.injEq, StatusNotFound] at h),
   (readLogStream_not_found dWithId apiReadUntyped).2 _ rfl (fun msg h => by simp at h)⟩

/-- C5: when the delete call fails with a typed 404, `deleteLogStream`
clears the stored identifier and returns no error (success); deleting a
nonexistent id is therefore not a failure, while any other delete failure
leaves the state unchanged and returns the error. -/
theorem deleteLogStream_not_found (d : ResourceData)
    (apiDelete : String → Option GoError) :
    (∀ msg, apiDelete d.id = some (.management StatusNotFound msg) →
      deleteLogStream d apiDelete = (setId d "", none)) ∧
    (∀ e, apiDelete d.id = some e → (∀ msg, e ≠ .management StatusNotFound msg) →
      deleteLogStream d apiDelete = (d, some e)) := by
  constructor
  · intro msg h
    simp [deleteLogStream, h]
  · intro e h hne
    cases e with
    | management st msg =>
        have hst : st ≠ StatusNotFound := by
          intro hc; exact hne msg (by rw [hc])
        simp [deleteLogStream, h, hst]
    | untyped msg => simp [deleteLogStream, h]

/-- Witness for C5: a 404 delete clears the id of `dWithId` and succeeds;
a 500 delete returns the error with the state unchanged. -/
theorem deleteLogStream_not_found_witness :
    deleteLogStream dWithId apiDelete404 = (setId dWithId "", none) ∧
    deleteLogStream dWithId apiDelete500 = (dWithId, some (.management 500 "server error")) :=
  ⟨(deleteLogStream_not_found dWithId apiDelete404).1 "not found" rfl,
   (deleteLogStream_not_found dWithId apiDelete500).2 _ rfl
     (fun msg h => by simp [GoError.management.injEq, StatusNotFound] at h)⟩

/-- C6: every API error that is not a typed 404 — typed errors with
another status and untyped errors alike — is returned unchanged by create,
read, update and delete, with the state untouched. -/
theorem api_error_propagated_verbatim (d : ResourceData)
    (apiCreate : LogStream → Except GoError String)
    (apiRead : String → Except GoError LogStream)
    (apiUpdate : String → LogStream → Option GoError)
    (apiDelete : String → Option GoError)
    (e : GoError) (hne : ∀ msg, e ≠ .management StatusNotFound msg) :
    (apiCreate (expandLogStream d) = .error e →
      createLogStream d apiCreate apiRead = (d, some e)) ∧
    (apiRead d.id = .error e →
      readLogStream d apiRead = (d, some e)) ∧
    (apiUpdate d.id (expandLogStream d) = some e →
      updateLogStream d apiUpdate apiRead = (d, some e)) ∧
    (apiDelete d.id = some e →
      deleteLogStream d apiDelete = (d, some e)) := by
  refine ⟨fun h => by simp [createLogStream, h], ?_,
    fun h => by simp [updateLogStream, h], ?_⟩
  · intro h
    exact (readLogStream_not_found d apiRead).2 e h hne
  · intro h
    exact (deleteLogStream_not_found d apiDelete).2 e h hne

/-- Witness for C6: a 429 on create, a 500 on read, an untyped error on
update and a 500 on delete are each returned verbatim. -/
theorem api_error_propagated_verbatim_witness :
    createLogStream dHttp apiCreate429 apiReadOk = (dHttp, some (.management 429 "too many requests")) ∧
    readLogStream dWithId apiRead500 = (dWithId, some (.management 500 "server error")) ∧
    updateLogStream dWithId apiUpdateUntyped apiReadOk = (dWithId, some (.untyped "connection refused")) ∧
    deleteLogStream dWithId apiDelete500 = (dWithId, some (.management 500 "server error")) :=
  ⟨(api_error_propagated_verbatim dHttp apiCreate429 apiReadOk apiUpdateUntyped apiDelete500
      (.management 429 "too many requests")
      (fun msg h => by simp [GoError.management.injEq, StatusNotFound] at h)).1 rfl,
   (api_error_propagated_verbatim dWithId apiCreate429 apiRead500 apiUpdateUntyped apiDelete500
      (.management 500 "server error")
      (fun msg h => by simp [GoError.management.injEq, StatusNotFound] at h)).2.1 rfl,
   (api_error_propagated_verbatim dWithId apiCreate429 apiReadOk apiUpdateUntyped apiDelete500
      (.untyped "connection refused")
      (fun msg h => by simp at h)).2.2.1 rfl,
   (api_error_propagated_verbatim dWithId apiCreate429 apiReadOk apiUpdateUntyped apiDelete500
      (.management 500 "server error")
      (fun msg h => by simp [GoError.management.injEq, StatusNotFound] at h)).2.2.2 rfl⟩

/-- C8: `createLogStream` sends exactly the record built by
`expandLogStream` to the Create call; on failure the identifier is not
stored and the error is returned, and on success the assigned identifier
is stored and the operation continues as a read (which reconciles the
computed fields). -/
theorem createLogStream_expand_then_read (d : ResourceData)
    (apiCreate : LogStream → Except GoError String)
    (apiRead : String → Except GoError LogStream) :
    (∀ e, apiCreate (expandLogStream d) = .error e →
      createLogStream d apiCreate apiRead = (d, some e)) ∧
    (∀ assignedId, apiCreate (expandLogStream d) = .ok assignedId →
      createLogStream d apiCreate apiRead = readLogStream (setId d assignedId) apiRead) := by
  constructor <;> intro x h <;> simp [createLogStream, h]

/-- Witness for C8: with a Create call assigning id "ls_abc" and a
successful follow-up read, create on the datadog configuration equals the
read applied after storing the id; with a failing Create the error is
returned and the state untouched. -/
theorem createLogStream_expand_then_read_witness :
    createLogStream dDatadog apiCreateOk apiReadOk =
      readLogStream (setId dDatadog "ls_abc") apiReadOk ∧
    createLogStream dDatadog apiCreate429 apiReadOk =
      (dDatadog, some (.management 429 "too many requests")) :=
  ⟨(createLogStream_expand_then_read dDatadog apiCreateOk apiReadOk).2 "ls_abc" rfl,
   (createLogStream_expand_then_read dDatadog apiCreate429 apiReadOk).1 _ rfl⟩

/-- C1: the flatten-after-expand round trip FAILS for the http sink type:
`flattenLogStreamHTTPSink` writes the content-format and content-type
values under the keys "http_contentFormat" and "http_contentType", so the
flat configuration keys "http_content_format" and "http_content_type" that
`expandLogStreamHTTPSink` reads are never written back (shown at a concrete
http configuration, where the endpoint field does round-trip and, by
contrast, every eventbridge field round-trips). -/
theorem flatten_expand_roundtrip_fails_for_http :
    getAttr dHttp "http_content_format" = some (.str "JSONLINES") ∧
    getAttr (flattenLogStreamSink emptyRD (expandLogStream dHttp).Sink)
      "http_content_format" = none ∧
    getAttr dHttp "http_content_type" = some (.str "application/json") ∧
    getAttr (flattenLogStreamSink emptyRD (expandLogStream dHttp).Sink)
      "http_content_type" = none ∧
    getAttr (flattenLogStreamSink emptyRD (expandLogStream dHttp).Sink)
      "http_endpoint" = some (.str "https://example.com/logs") ∧
    getAttr (flattenLogStreamSink emptyRD (expandLogStream dHttp).Sink)
      "http_authorization" = some (.str "Bearer abc") ∧
    getAttr (flattenLogStreamSink emptyRD (expandLogStream dEventBridge).Sink)
      "aws_account_id" = getAttr dEventBridge "aws_account_id" ∧
    getAttr (flattenLogStreamSink emptyRD (expandLogStream dEventBridge).Sink)
      "aws_region" = getAttr dEventBridge "aws_region" := by
  refine ⟨by decide, by decide, by decide, by decide, by decide, by decide, by decide, by decide⟩

/-- A concrete HTTP sink value as returned by the remote API. -/
def httpSinkRemote : LogStreamSinkHTTP :=
  { ContentFormat := some "JSONLINES"
    ContentType := some "application/json"
    Endpoint := some "https://example.com/logs"
    Authorization := some "Bearer abc"
    CustomHeaders := [] }

/-- C7: `flattenLogStreamSink` dispatches on the runtime tag of the sink
value alone (the record's type field is not an input of the function), and
a sink matching none of the five known variants updates no configuration
field at all; however the claim that each sink field is copied into its
corresponding flat configuration key FAILS for the HTTP variant: content
format and content type are written under the non-schema keys
"http_contentFormat" and "http_contentType" instead of the configuration
keys "http_content_format" and "http_content_type" (the Datadog variant,
by contrast, is copied to its proper keys). -/
theorem flattenLogStreamSink_dispatch_and_http_keys :
    (∀ d, flattenLogStreamSink d none = d) ∧
    getAttr (flattenLogStreamSink emptyRD (some (.http httpSinkRemote)))
      "http_contentFormat" = some (.str "JSONLINES") ∧
    getAttr (flattenLogStreamSink emptyRD (some (.http httpSinkRemote)))
      "http_content_format" = none ∧
    getAttr (flattenLogStreamSink emptyRD (some (.http httpSinkRemote)))
      "http_contentType" = some (.str "application/json") ∧
    getAttr (flattenLogStreamSink emptyRD (some (.http httpSinkRemote)))
      "http_content_type" = none ∧
    getAttr (flattenLogStreamSink emptyRD
      (some (.datadog { Region := some "eu", APIKey := some "ddkey" })))
      "datadog_region" = some (.str "eu") ∧
    getAttr (flattenLogStreamSink emptyRD
      (some (.datadog { Region := some "eu", APIKey := some "ddkey" })))
      "datadog_api_key" = some (.str "ddkey") :=
  ⟨fun _ => rfl, by decide, by decide, by decide, by decide, by decide, by decide⟩

end LogStreamMapper
